import Mathlib

/-!
# MAX77843 haptic motor driver: activation state machine and intensity mapping

Shallow embedding of `drivers/motor/max77843_haptic.c`.  The driver state
`struct max77843_haptic_data` becomes a record that also carries the state of
the kernel objects and of the hardware the driver talks to (countdown timer,
worker queue, PWM channel, regulator, the two PMIC registers) together with a
trace of the hardware requests issued so far.  Every driver function is a pure
function on that record, executed atomically: the embedding describes the
sequential behaviour of each entry point, not their interleavings.
-/

namespace Max77843Haptic

/-! ## Constants of the driver -/

def MAX_INTENSITY : Int := 10000

def MOTOR_LRA : Nat := 1 <<< 7

def MOTOR_EN : Nat := 1 <<< 6

def MAX77843_REG_MAINCTRL1_BIASEN : Nat := 1 <<< 7

def NSEC_PER_MSEC : Nat := 1000000

def EINVAL : Int := 22

def ENOMEM : Int := 12

def EFAULT : Int := 14

def ENODEV : Int := 19

/-- Conversion of a mathematical integer to a C `int` (32 bit, two's complement). -/
def to_int (x : Int) : Int := (x + 2147483648) % 4294967296 - 2147483648

/-- Conversion of a mathematical integer to a C `u32`. -/
def to_u32 (x : Int) : Nat := (x % 4294967296).toNat

/-- Conversion of a natural number to a C `u64`. -/
def to_u64 (x : Nat) : Nat := x % 18446744073709551616

/-! ## Data model -/

/-- A C `u16`. -/
abbrev u16 := Fin 65536

/-- The fields of `struct max77843_haptic_platform_data` the driver reads.  The
structure is declared in a header outside the driver file; the three fields are
`u16`, as the casts in `of_max77843_haptic_dt` and the locals of `store_duty`
and `store_period` show. -/
structure max77843_haptic_platform_data where
  max_timeout : u16
  duty : u16
  period : u16
  deriving DecidableEq, Repr

/-- The two PMIC registers the driver updates. -/
inductive pmic_reg where
  | MAINCTRL1
  | MCONFIG
  deriving DecidableEq, Repr

/-- A request the driver sends to the hardware collaborators. -/
inductive hw_op where
  | pwm_config (duty : Int) (period : Nat)
  | pwm_enable
  | pwm_disable
  | regulator_enable
  | regulator_disable
  | update_reg (reg : pmic_reg) (val : Nat) (mask : Nat)
  deriving DecidableEq, Repr

/-- The driver state `struct max77843_haptic_data` (fields `pdata`, `running`,
`intensity`, `timeout`, `duty`), followed by the state of the objects it owns:
`timer` is the hrtimer (`some ns` when armed with `ns` nanoseconds to go),
`kwork_queued` says whether `kwork` sits on `kworker`, the `pwm_*` fields are
the PWM channel, `regulator_enables` the regulator use count, `mainctrl1` and
`mconfig` the PMIC registers, and `hw_log` the hardware requests issued so far,
oldest first. -/
structure max77843_haptic_data where
  pdata : max77843_haptic_platform_data
  running : Bool
  intensity : Nat
  timeout : Nat
  duty : Int
  timer : Option Nat
  kwork_queued : Bool
  pwm_duty : Int
  pwm_period : Nat
  pwm_enabled : Bool
  regulator_enables : Nat
  mainctrl1 : Nat
  mconfig : Nat
  hw_log : List hw_op
  deriving DecidableEq, Repr

/-! ## Collaborators (PWM core, regulator core, register bus, hrtimer, kthread worker) -/

/-- Modelled from the spec: `pwm_config` of the kernel PWM core (not in the
driver file), "program PWM duty/period": the channel takes the given duty and
period. -/
def pwm_config (s : max77843_haptic_data) (duty : Int) (period : Nat) :
    max77843_haptic_data :=
  { s with pwm_duty := duty, pwm_period := period,
           hw_log := s.hw_log ++ [hw_op.pwm_config duty period] }

/-- Modelled from the spec: `pwm_enable` of the kernel PWM core, "enable PWM
output". -/
def pwm_enable (s : max77843_haptic_data) : max77843_haptic_data :=
  { s with pwm_enabled := true, hw_log := s.hw_log ++ [hw_op.pwm_enable] }

/-- Modelled from the spec: `pwm_disable` of the kernel PWM core, "disable PWM
output". -/
def pwm_disable (s : max77843_haptic_data) : max77843_haptic_data :=
  { s with pwm_enabled := false, hw_log := s.hw_log ++ [hw_op.pwm_disable] }

/-- Modelled from the spec: `regulator_enable` of the regulator core, "enable
the power regulator"; one more enable is counted. -/
def regulator_enable (s : max77843_haptic_data) : max77843_haptic_data :=
  { s with regulator_enables := s.regulator_enables + 1,
           hw_log := s.hw_log ++ [hw_op.regulator_enable] }

/-- Modelled from the spec: `regulator_disable` of the regulator core. -/
def regulator_disable (s : max77843_haptic_data) : max77843_haptic_data :=
  { s with regulator_enables := s.regulator_enables - 1,
           hw_log := s.hw_log ++ [hw_op.regulator_disable] }

/-- The read-modify-write of one register value: the bits of `mask` are taken
from `val`, the other bits (of the eight) are kept. -/
def rmw (old val mask : Nat) : Nat := (val &&& mask) ||| (old &&& (255 ^^^ mask))

/-- Modelled from the spec: `max77843_update_reg` of the MFD core, the register
bus primitive `read_modify_write(register_id, value, mask)`. -/
def max77843_update_reg (s : max77843_haptic_data) (reg : pmic_reg) (val mask : Nat) :
    max77843_haptic_data :=
  match reg with
  | pmic_reg.MAINCTRL1 =>
    { s with mainctrl1 := rmw s.mainctrl1 val mask,
             hw_log := s.hw_log ++ [hw_op.update_reg reg val mask] }
  | pmic_reg.MCONFIG =>
    { s with mconfig := rmw s.mconfig val mask,
             hw_log := s.hw_log ++ [hw_op.update_reg reg val mask] }

/-- Modelled from the spec: `hrtimer_cancel`, "cancel() is synchronous": no
countdown is armed afterwards. -/
def hrtimer_cancel (s : max77843_haptic_data) : max77843_haptic_data :=
  { s with timer := none }

/-- Modelled from the spec: `hrtimer_start` in relative mode, "arm(ms) cancels
any existing countdown and starts a new one"; the argument is in nanoseconds. -/
def hrtimer_start (s : max77843_haptic_data) (ns : Nat) : max77843_haptic_data :=
  { s with timer := some ns }

/-- Modelled from the spec: `queue_kthread_work`; the single work item is on the
queue afterwards (queueing it twice leaves one job). -/
def queue_kthread_work (s : max77843_haptic_data) : max77843_haptic_data :=
  { s with kwork_queued := true }

/-! ## The driver functions -/

/-- Source: `motor_vdd_en`. -/
def motor_vdd_en (s : max77843_haptic_data) (en : Bool) : max77843_haptic_data :=
  if en then regulator_enable s else regulator_disable s

/-- Source: `max77843_haptic_init_reg`. -/
def max77843_haptic_init_reg (s : max77843_haptic_data) : max77843_haptic_data :=
  let s := motor_vdd_en s true
  let lscnfg_val := MAX77843_REG_MAINCTRL1_BIASEN
  let s := max77843_update_reg s pmic_reg.MAINCTRL1 lscnfg_val MAX77843_REG_MAINCTRL1_BIASEN
  let s := max77843_update_reg s pmic_reg.MCONFIG 0x0 MOTOR_EN
  max77843_update_reg s pmic_reg.MCONFIG 0xff MOTOR_LRA

/-- Source: `max77843_haptic_i2c`. -/
def max77843_haptic_i2c (s : max77843_haptic_data) (en : Bool) : max77843_haptic_data :=
  if en then max77843_update_reg s pmic_reg.MCONFIG 0xff MOTOR_EN
  else max77843_update_reg s pmic_reg.MCONFIG 0x0 MOTOR_EN

/-- Source: `haptic_get_time`.  `ktime_to_timeval` splits the remaining
nanoseconds into seconds and microseconds. -/
def haptic_get_time (s : max77843_haptic_data) : Int :=
  match s.timer with
  | some remain =>
    let tv_sec : Int := ((remain / 1000000000 : Nat) : Int)
    let tv_usec : Int := ((remain % 1000000000 / 1000 : Nat) : Int)
    to_int (tv_sec * 1000 + tv_usec / 1000)
  | none => 0

/-- Source: `haptic_work`, the stop job. -/
def haptic_work (s : max77843_haptic_data) : max77843_haptic_data :=
  if s.running then
    let s := max77843_haptic_i2c s false
    let s := pwm_disable s
    { s with running := false }
  else s

/-- Modelled from the spec: the Deferred Stop Worker consuming one stop job
(`kthread_worker_fn` of the kernel, not in the driver file): the job leaves the
queue and `haptic_work` runs. -/
def run_stop_job (s : max77843_haptic_data) : max77843_haptic_data :=
  haptic_work { s with kwork_queued := false }

/-- Modelled from the spec: `flush_kthread_worker`, "any outstanding stop job
has completed": a queued job is executed before the call returns. -/
def flush_kthread_worker (s : max77843_haptic_data) : max77843_haptic_data :=
  if s.kwork_queued then run_stop_job s else s

/-- Source: `haptic_enable`, the operation `activate(duration_ms)`. -/
def haptic_enable (s : max77843_haptic_data) (value : Int) : max77843_haptic_data :=
  let s := flush_kthread_worker s
  let s := hrtimer_cancel s
  let s := { s with timeout := to_u32 value }
  if value > 0 then
    let s :=
      if !s.running then
        let s := pwm_config s s.duty s.pdata.period.val
        let s := pwm_enable s
        let s := regulator_enable s
        let s := max77843_haptic_i2c s true
        { s with running := true }
      else s
    let value := min value (s.pdata.max_timeout.val : Int)
    hrtimer_start s (to_u64 (value.toNat * NSEC_PER_MSEC))
  else
    queue_kthread_work s

/-- Source: `haptic_timer_func`, the timer-expiry callback. -/
def haptic_timer_func (s : max77843_haptic_data) : max77843_haptic_data :=
  queue_kthread_work { s with timeout := 0 }

/-- Modelled from the spec: expiry of the Timeout Scheduler (hrtimer core, not in
the driver file): the countdown is no longer armed and the callback runs once
(it returns `HRTIMER_NORESTART`). -/
def hrtimer_expire (s : max77843_haptic_data) : max77843_haptic_data :=
  haptic_timer_func { s with timer := none }

/-- The duty computation of `intensity_store` (between the range check and the
stores), for an intensity that passed the range check. -/
def intensity_store_duty (pdata : max77843_haptic_platform_data) (intensity : Int) : Int :=
  let duty : Int := ((pdata.period.val >>> 1 : Nat) : Int)
  if MAX_INTENSITY = intensity then
    (pdata.duty.val : Int)
  else if 0 ≠ intensity then
    let tmp : Int := ((pdata.duty.val >>> 1 : Nat) : Int)
    let tmp := tmp * (Int.tdiv intensity 100)
    to_int (duty + to_int (Int.tdiv tmp 100))
  else
    duty

/-- Modelled from the spec: the number parsing of the control surface
(`kstrtoint` of the kernel library, not in the driver file).  `request` is the
number the written text denotes, `none` when the text is not a number.  The
number is stored (`some`) only when it fits a C `int`; otherwise nothing is
stored (`none`) and an error code is returned. -/
def kstrtoint (request : Option Int) : Option Int :=
  match request with
  | some v => if -2147483648 ≤ v ∧ v ≤ 2147483647 then some v else none
  | none => none

/-- Source: `intensity_store`, the operation `set_intensity`.  `request` is the
number the written text denotes (`none` when it is not a number), `count` the
length of the written buffer.  The local `intensity` starts at `0` and takes
what `kstrtoint` stores; the return code of `kstrtoint` is assigned to `ret`
and never read, so a failed parse goes on with `intensity = 0`.  The result is
the new state and the returned value. -/
def intensity_store (s : max77843_haptic_data) (request : Option Int) (count : Nat) :
    max77843_haptic_data × Int :=
  let intensity : Int := (kstrtoint request).getD 0
  if intensity < 0 ∨ MAX_INTENSITY < intensity then
    (s, -EINVAL)
  else
    let duty := intensity_store_duty s.pdata intensity
    let s := { s with intensity := to_u32 intensity, duty := duty }
    let s := pwm_config s duty s.pdata.period.val
    (s, (count : Int))

/-- What the platform answers while `max77843_haptic_probe` runs: whether
each acquisition succeeds, the result of the final `sysfs_create_file`, and the
contents of the two PMIC registers at attach. -/
structure probe_env where
  kzalloc_ok : Bool
  kthread_ok : Bool
  pwm_ok : Bool
  regulator_ok : Bool
  sec_device_ok : Bool
  sysfs_group_ok : Bool
  timed_output_ok : Bool
  sysfs_file_ret : Int
  mainctrl1 : Nat
  mconfig : Nat
  deriving DecidableEq, Repr

/-- Source: `max77843_haptic_probe`, for platform data that is present, with
`CONFIG_ANDROID_TIMED_OUTPUT` set and `init_hw` unset.  On failure the error
code is returned and no device exists. -/
def max77843_haptic_probe (env : probe_env) (pdata : max77843_haptic_platform_data) :
    Except Int max77843_haptic_data :=
  if !env.kzalloc_ok then Except.error (-ENOMEM)
  else
    let hap_data : max77843_haptic_data :=
      { pdata := pdata, running := false, intensity := 0, timeout := 0, duty := 0,
        timer := none, kwork_queued := false, pwm_duty := 0, pwm_period := 0,
        pwm_enabled := false, regulator_enables := 0,
        mainctrl1 := env.mainctrl1, mconfig := env.mconfig, hw_log := [] }
    if !env.kthread_ok then Except.error (-ENOMEM)
    else if !env.pwm_ok then Except.error (-EFAULT)
    else
      let hap_data := pwm_config hap_data ((pdata.period.val / 2 : Nat) : Int) pdata.period.val
      if !env.regulator_ok then Except.error (-EFAULT)
      else
        let hap_data := max77843_haptic_init_reg hap_data
        if !env.sec_device_ok then Except.error (-ENODEV)
        else if !env.sysfs_group_ok then Except.error (-ENODEV)
        else if !env.timed_output_ok then Except.error (-EFAULT)
        else if env.sysfs_file_ret < 0 then Except.error env.sysfs_file_ret
        else Except.ok hap_data

/-- Source: `max77843_haptic_suspend` (it returns `0`). -/
def max77843_haptic_suspend (s : max77843_haptic_data) : max77843_haptic_data :=
  let s := flush_kthread_worker s
  let s := hrtimer_cancel s
  max77843_haptic_i2c s false

/-- Source: `max77843_haptic_resume` (it returns `0`). -/
def max77843_haptic_resume (s : max77843_haptic_data) : max77843_haptic_data :=
  max77843_haptic_init_reg s

/-! ## Operations on a device, and sequences of them -/

/-- The operations a device receives after construction. -/
inductive haptic_op where
  | activate (duration_ms : Int)
  | timer_expiry
  | stop_job
  | set_intensity (request : Option Int) (count : Nat)
  | suspend
  | resume
  deriving DecidableEq, Repr

/-- One operation applied to the device. -/
def step (s : max77843_haptic_data) (op : haptic_op) : max77843_haptic_data :=
  match op with
  | haptic_op.activate d => haptic_enable s d
  | haptic_op.timer_expiry => hrtimer_expire s
  | haptic_op.stop_job => run_stop_job s
  | haptic_op.set_intensity request count => (intensity_store s request count).1
  | haptic_op.suspend => max77843_haptic_suspend s
  | haptic_op.resume => max77843_haptic_resume s

/-- A sequence of operations applied from left to right. -/
def run (s : max77843_haptic_data) (ops : List haptic_op) : max77843_haptic_data :=
  ops.foldl step s

/-! ## Predicates of the specification -/

/-- The motor-enable bit of `MCONFIG` is set. -/
def motor_en_set (s : max77843_haptic_data) : Prop :=
  s.mconfig &&& MOTOR_EN = MOTOR_EN

instance (s : max77843_haptic_data) : Decidable (motor_en_set s) :=
  inferInstanceAs (Decidable (s.mconfig &&& MOTOR_EN = MOTOR_EN))

/-- The data-model invariant: a running device has its PWM programmed with the
stored duty and the platform period, and the motor-enable bit set. -/
def running_powered (s : max77843_haptic_data) : Prop :=
  s.running = true →
    s.pwm_duty = s.duty ∧ s.pwm_period = s.pdata.period.val ∧ motor_en_set s

instance (s : max77843_haptic_data) : Decidable (running_powered s) :=
  inferInstanceAs (Decidable (s.running = true →
    s.pwm_duty = s.duty ∧ s.pwm_period = s.pdata.period.val ∧ motor_en_set s))

/-- The duty formula as the specification words it, "with enough precision to
avoid truncation bias at small intensities": the factor `intensity / 100` is
not truncated, the product is divided once by `10000`. -/
def spec_duty_full_precision (intensity baseline_duty period : Int) : Int :=
  period / 2 + (baseline_duty / 2) * intensity / 10000

/-- A board configuration used for the concrete evaluations: 10 s maximum
timeout, baseline duty 500, period 1000. -/
def board : max77843_haptic_platform_data :=
  { max_timeout := 10000, duty := 500, period := 1000 }

/-- A platform on which every acquisition of `max77843_haptic_probe` succeeds
and both PMIC registers read `0` at attach. -/
def good_env : probe_env :=
  { kzalloc_ok := true, kthread_ok := true, pwm_ok := true, regulator_ok := true,
    sec_device_ok := true, sysfs_group_ok := true, timed_output_ok := true,
    sysfs_file_ret := 0, mainctrl1 := 0, mconfig := 0 }

/-- The device `max77843_haptic_probe` constructs for `board` on `good_env`. -/
def fresh : max77843_haptic_data :=
  { pdata := board, running := false, intensity := 0, timeout := 0, duty := 0,
    timer := none, kwork_queued := false, pwm_duty := 500, pwm_period := 1000,
    pwm_enabled := false, regulator_enables := 1, mainctrl1 := 128, mconfig := 128,
    hw_log := [hw_op.pwm_config 500 1000, hw_op.regulator_enable,
               hw_op.update_reg pmic_reg.MAINCTRL1 128 128,
               hw_op.update_reg pmic_reg.MCONFIG 0 64,
               hw_op.update_reg pmic_reg.MCONFIG 255 128] }

theorem probe_fresh : max77843_haptic_probe good_env board = Except.ok fresh := by
  rfl

/-! ## Arithmetic helpers -/

theorem to_int_of_range (x : Int) (h0 : -2147483648 ≤ x) (h1 : x < 2147483648) :
    to_int x = x := by
  unfold to_int; omega

theorem to_u32_of_range (x : Int) (h0 : 0 ≤ x) (h1 : x < 4294967296) :
    to_u32 x = x.toNat := by
  unfold to_u32; omega

theorem half_scaled_le (b k : Int) (hb0 : 0 ≤ b) (hk0 : 0 ≤ k) (hk : k ≤ 99) :
    0 ≤ b * k / 100 ∧ b * k / 100 ≤ b := by
  have h1 : b * k ≤ b * 99 := Int.mul_le_mul_of_nonneg_left hk hb0
  have h2 : 0 ≤ b * k := Int.mul_nonneg hb0 hk0
  constructor <;> omega

/-- The duty computed for an intensity strictly between `0` and `MAX_INTENSITY`:
the two divisions by `100` each truncate. -/
theorem intensity_store_duty_mid (pdata : max77843_haptic_platform_data) (v : Int)
    (h0 : 0 < v) (h1 : v < MAX_INTENSITY) :
    intensity_store_duty pdata v =
      ((pdata.period.val / 2 : Nat) : Int)
        + ((pdata.duty.val / 2 : Nat) : Int) * (v / 100) / 100 := by
  unfold MAX_INTENSITY at h1
  have hv : Int.tdiv v 100 = v / 100 := Int.tdiv_eq_ediv (by omega) (by omega)
  have hk0 : 0 ≤ v / 100 := by omega
  have hk1 : v / 100 ≤ 99 := by omega
  have hb0 : (0 : Int) ≤ ((pdata.duty.val / 2 : Nat) : Int) := by omega
  have hp := half_scaled_le _ _ hb0 hk0 hk1
  have ht : Int.tdiv (((pdata.duty.val / 2 : Nat) : Int) * (v / 100)) 100
      = ((pdata.duty.val / 2 : Nat) : Int) * (v / 100) / 100 :=
    Int.tdiv_eq_ediv (Int.mul_nonneg hb0 hk0) (by omega)
  have hd := pdata.duty.isLt
  have hpe := pdata.period.isLt
  unfold intensity_store_duty
  simp only [Nat.shiftRight_eq_div_pow, pow_one, MAX_INTENSITY]
  rw [if_neg (by omega), if_pos (by omega), hv, ht]
  have hin : to_int (((pdata.duty.val / 2 : Nat) : Int) * (v / 100) / 100)
      = ((pdata.duty.val / 2 : Nat) : Int) * (v / 100) / 100 :=
    to_int_of_range _ (by omega) (by omega)
  rw [hin, to_int_of_range _ (by omega) (by omega)]

theorem intensity_store_duty_max (pdata : max77843_haptic_platform_data) :
    intensity_store_duty pdata MAX_INTENSITY = (pdata.duty.val : Int) := by
  simp [intensity_store_duty]

theorem intensity_store_duty_zero (pdata : max77843_haptic_platform_data) :
    intensity_store_duty pdata 0 = ((pdata.period.val / 2 : Nat) : Int) := by
  simp [intensity_store_duty, MAX_INTENSITY, Nat.shiftRight_eq_div_pow]

/-! ## Unfolding `intensity_store` -/

theorem kstrtoint_fits (v : Int) (hlo : -2147483648 ≤ v) (hhi : v ≤ 2147483647) :
    kstrtoint (some v) = some v := by
  simp [kstrtoint, hlo, hhi]

theorem kstrtoint_overflow (v : Int) (h : v < -2147483648 ∨ 2147483647 < v) :
    kstrtoint (some v) = none := by
  have hn : ¬ (-2147483648 ≤ v ∧ v ≤ 2147483647) := by omega
  simp [kstrtoint, hn]

theorem intensity_store_reject (s : max77843_haptic_data) (v : Int) (count : Nat)
    (hlo : -2147483648 ≤ v) (hhi : v ≤ 2147483647) (h : v < 0 ∨ MAX_INTENSITY < v) :
    intensity_store s (some v) count = (s, -EINVAL) := by
  simp [intensity_store, kstrtoint_fits v hlo hhi, h]

theorem intensity_store_none (s : max77843_haptic_data) (count : Nat) :
    intensity_store s none count = intensity_store s (some 0) count := by
  simp [intensity_store, kstrtoint]

theorem intensity_store_overflow (s : max77843_haptic_data) (v : Int) (count : Nat)
    (h : v < -2147483648 ∨ 2147483647 < v) :
    intensity_store s (some v) count = intensity_store s (some 0) count := by
  simp [intensity_store, kstrtoint_overflow v h, kstrtoint_fits 0 (by decide) (by decide)]

theorem intensity_store_accept (s : max77843_haptic_data) (v : Int) (count : Nat)
    (h0 : 0 ≤ v) (h1 : v ≤ MAX_INTENSITY) :
    intensity_store s (some v) count =
      (pwm_config { s with intensity := to_u32 v, duty := intensity_store_duty s.pdata v }
          (intensity_store_duty s.pdata v) s.pdata.period.val, (count : Int)) := by
  have hM : MAX_INTENSITY = 10000 := rfl
  have h : ¬ (v < 0 ∨ MAX_INTENSITY < v) := by omega
  simp [intensity_store, kstrtoint_fits v (by omega) (by omega), h]

theorem intensity_store_duty_congr (p q : max77843_haptic_platform_data) (v : Int)
    (hd : p.duty = q.duty) (hp : p.period = q.period) :
    intensity_store_duty p v = intensity_store_duty q v := by
  unfold intensity_store_duty
  rw [hd, hp]

theorem intensity_store_duty_mono (pdata : max77843_haptic_platform_data) (i j : Int)
    (h0 : 0 ≤ i) (hij : i ≤ j) (hj : j < MAX_INTENSITY) :
    intensity_store_duty pdata i ≤ intensity_store_duty pdata j := by
  have hM : MAX_INTENSITY = 10000 := rfl
  have hb0 : (0 : Int) ≤ ((pdata.duty.val / 2 : Nat) : Int) := by omega
  rcases lt_or_eq_of_le h0 with hi | hi
  · rw [intensity_store_duty_mid pdata i hi (by omega),
      intensity_store_duty_mid pdata j (by omega) hj]
    have hk : i / 100 ≤ j / 100 := Int.ediv_le_ediv (by decide) hij
    have hm := Int.mul_le_mul_of_nonneg_left hk hb0
    have hq := Int.ediv_le_ediv (show (0 : Int) < 100 by decide) hm
    omega
  · subst hi
    rw [intensity_store_duty_zero]
    rcases lt_or_eq_of_le hij with hj0 | hj0
    · rw [intensity_store_duty_mid pdata j hj0 hj]
      have hk0 : 0 ≤ j / 100 := by omega
      have hk1 : j / 100 ≤ 99 := by omega
      have hp := half_scaled_le _ _ hb0 hk0 hk1
      omega
    · subst hj0
      rw [intensity_store_duty_zero]

/-! ## The intensity mapper: claims C6, C7, C8, C10 -/

/-- For a request that fits a C `int`, `intensity_store` fails exactly when the
value is below `0` or above `MAX_INTENSITY`: such a value returns `-EINVAL` and
leaves the whole device state unchanged; a value in `0..=MAX_INTENSITY` returns
the byte count, which is not an error, and is stored as the intensity. -/
theorem intensity_store_range_check_of_int (s : max77843_haptic_data) (v : Int)
    (count : Nat) (hlo : -2147483648 ≤ v) (hhi : v ≤ 2147483647) :
    ((v < 0 ∨ MAX_INTENSITY < v) → intensity_store s (some v) count = (s, -EINVAL)) ∧
    ((0 ≤ v ∧ v ≤ MAX_INTENSITY) →
      (intensity_store s (some v) count).2 = (count : Int) ∧
      ((intensity_store s (some v) count).1.intensity : Int) = v) ∧
    ((intensity_store s (some v) count).2 = -EINVAL ↔ (v < 0 ∨ MAX_INTENSITY < v)) := by
  have hM : MAX_INTENSITY = 10000 := rfl
  have hE : EINVAL = 22 := rfl
  refine ⟨intensity_store_reject s v count hlo hhi, ?_, ?_⟩
  · rintro ⟨h0, h1⟩
    rw [intensity_store_accept s v count h0 h1]
    refine ⟨rfl, ?_⟩
    show ((to_u32 v : Nat) : Int) = v
    rw [to_u32_of_range v h0 (by omega)]
    omega
  · constructor
    · intro h
      by_contra hc
      rw [intensity_store_accept s v count (by omega) (by omega)] at h
      simp only at h
      omega
    · intro h
      rw [intensity_store_reject s v count hlo hhi h]

/-- C6, evaluation of the driver at the failing input: the request
`99999999999` is above `MAX_INTENSITY` but does not fit a C `int`, so
`kstrtoint` stores nothing and `intensity_store` goes on with intensity `0`.
On the device constructed for `board` it returns the byte count `11` instead of
`-EINVAL`, sets the stored duty from `0` to `500` and programs the PWM once
more; on that device with intensity `10000` stored, it overwrites the stored
intensity with `0`.  The request `-99999999999`, below `0`, is accepted the
same way. -/
theorem intensity_store_accepts_request_beyond_int :
    MAX_INTENSITY < 99999999999 ∧
    kstrtoint (some 99999999999) = none ∧
    (intensity_store fresh (some 99999999999) 11).2 = 11 ∧
    fresh.duty = 0 ∧
    (intensity_store fresh (some 99999999999) 11).1.duty = 500 ∧
    (intensity_store fresh (some 99999999999) 11).1.hw_log
      = fresh.hw_log ++ [hw_op.pwm_config 500 1000] ∧
    (intensity_store fresh (some 10000) 6).1.intensity = 10000 ∧
    (intensity_store (intensity_store fresh (some 10000) 6).1 (some 99999999999) 11).2 = 11 ∧
    (intensity_store (intensity_store fresh (some 10000) 6).1 (some 99999999999) 11).1.intensity
      = 0 ∧
    intensity_store fresh (some 99999999999) 11 ≠ (fresh, -EINVAL) ∧
    intensity_store fresh (some (-99999999999)) 12 ≠ (fresh, -EINVAL) ∧
    intensity_store fresh (some 99999999999) 11 = intensity_store fresh none 11 := by
  decide

/-- C7: for the intensity `MAX_INTENSITY`, whatever the baseline duty, the
period and the `running` flag, `intensity_store` stores exactly the baseline
duty and programs the PWM with that duty (and the platform period); it touches
neither `running` nor any other hardware. -/
theorem intensity_store_max_gives_baseline (s : max77843_haptic_data) (count : Nat) :
    (intensity_store s (some MAX_INTENSITY) count).2 = (count : Int) ∧
    (intensity_store s (some MAX_INTENSITY) count).1.duty = (s.pdata.duty.val : Int) ∧
    (intensity_store s (some MAX_INTENSITY) count).1.pwm_duty = (s.pdata.duty.val : Int) ∧
    (intensity_store s (some MAX_INTENSITY) count).1.pwm_period = s.pdata.period.val ∧
    (intensity_store s (some MAX_INTENSITY) count).1.running = s.running ∧
    (intensity_store s (some MAX_INTENSITY) count).1.hw_log =
      s.hw_log ++ [hw_op.pwm_config (s.pdata.duty.val : Int) s.pdata.period.val] := by
  rw [intensity_store_accept s MAX_INTENSITY count (by decide) (le_refl _),
    intensity_store_duty_max]
  simp [pwm_config]

/-- C8, the claim as worded fails: with baseline duty 500, period 1000 and
intensity 50 the driver stores the duty 500, while the full-precision formula
of the specification gives 501. -/
theorem intensity_store_small_intensity_truncated :
    (intensity_store fresh (some 50) 3).1.duty = 500 ∧
    spec_duty_full_precision 50 500 1000 = 501 ∧
    (intensity_store fresh (some 50) 3).1.duty
      ≠ spec_duty_full_precision 50 (fresh.pdata.duty.val : Int) (fresh.pdata.period.val : Int) := by
  decide

/-- C8 as amended: for every intensity strictly between `0` and `MAX_INTENSITY`
and every 16-bit baseline duty and period, the stored duty is
`period/2 + (baseline_duty/2) * (intensity/100) / 100` where each of the three
divisions truncates, so the last two digits of the intensity have no effect. -/
theorem intensity_store_duty_truncating_formula (s : max77843_haptic_data) (v : Int)
    (count : Nat) (h0 : 0 < v) (h1 : v < MAX_INTENSITY) :
    (intensity_store s (some v) count).1.duty =
      ((s.pdata.period.val / 2 : Nat) : Int)
        + ((s.pdata.duty.val / 2 : Nat) : Int) * (v / 100) / 100 := by
  have hM : MAX_INTENSITY = 10000 := rfl
  rw [intensity_store_accept s v count (by omega) (by omega)]
  exact intensity_store_duty_mid s.pdata v h0 h1

theorem intensity_store_duty_truncating_formula_witness :
    (intensity_store fresh (some 5000) 4).1.duty =
      ((fresh.pdata.period.val / 2 : Nat) : Int)
        + ((fresh.pdata.duty.val / 2 : Nat) : Int) * (5000 / 100) / 100 :=
  intensity_store_duty_truncating_formula fresh 5000 4 (by decide) (by decide)

/-- C10: the duty `intensity_store` stores depends only on the intensity, the
baseline duty and the period (two devices that agree on the latter two store the
same duty for the same intensity), and below `MAX_INTENSITY` it is monotonically
non-decreasing in the intensity. -/
theorem intensity_store_duty_deterministic_monotone (s s' : max77843_haptic_data)
    (i j : Int) (ci cj : Nat)
    (hd : s.pdata.duty = s'.pdata.duty) (hp : s.pdata.period = s'.pdata.period)
    (h0 : 0 ≤ i) (hij : i ≤ j) (hj : j < MAX_INTENSITY) :
    (intensity_store s (some i) ci).1.duty = (intensity_store s' (some i) cj).1.duty ∧
    (intensity_store s (some i) ci).1.duty ≤ (intensity_store s' (some j) cj).1.duty := by
  have hM : MAX_INTENSITY = 10000 := rfl
  rw [intensity_store_accept s i ci h0 (by omega),
    intensity_store_accept s' i cj h0 (by omega),
    intensity_store_accept s' j cj (by omega) (by omega)]
  show intensity_store_duty s.pdata i = intensity_store_duty s'.pdata i ∧
    intensity_store_duty s.pdata i ≤ intensity_store_duty s'.pdata j
  rw [intensity_store_duty_congr s.pdata s'.pdata i hd hp]
  exact ⟨rfl, intensity_store_duty_mono s'.pdata i j h0 hij hj⟩

theorem intensity_store_duty_deterministic_monotone_witness :
    ((intensity_store fresh (some 1) 1).1.duty = (intensity_store fresh (some 1) 2).1.duty ∧
      (intensity_store fresh (some 1) 1).1.duty ≤ (intensity_store fresh (some 50) 2).1.duty) ∧
    ((intensity_store fresh (some 50) 2).1.duty = (intensity_store fresh (some 50) 4).1.duty ∧
      (intensity_store fresh (some 50) 2).1.duty ≤ (intensity_store fresh (some 9999) 4).1.duty) ∧
    (intensity_store fresh (some 1) 1).1.duty = 500 ∧
    (intensity_store fresh (some 50) 2).1.duty = 500 ∧
    (intensity_store fresh (some 9999) 4).1.duty = 747 :=
  ⟨intensity_store_duty_deterministic_monotone fresh fresh 1 50 1 2 rfl rfl
      (by decide) (by decide) (by decide),
   intensity_store_duty_deterministic_monotone fresh fresh 50 9999 2 4 rfl rfl
      (by decide) (by decide) (by decide),
   by decide, by decide, by decide⟩

/-! ## Register helpers -/

theorem rmw_set_motor_en (old : Nat) : rmw old 255 MOTOR_EN &&& MOTOR_EN = MOTOR_EN := by
  show ((255 &&& 64) ||| (old &&& (255 ^^^ 64))) &&& 64 = 64
  have h1 : (255 ^^^ 64) &&& 64 = 0 := by decide
  have h2 : (255 &&& 64) &&& 64 = 64 := by decide
  rw [Nat.and_distrib_right, Nat.and_assoc old, h1, h2]
  simp

theorem rmw_clear_motor_en (old : Nat) : rmw old 0 MOTOR_EN &&& MOTOR_EN = 0 := by
  show ((0 &&& 64) ||| (old &&& (255 ^^^ 64))) &&& 64 = 0
  have h1 : (255 ^^^ 64) &&& 64 = 0 := by decide
  rw [Nat.and_distrib_right, Nat.and_assoc old, h1]
  simp

theorem motor_en_ne_zero : MOTOR_EN ≠ 0 := by decide

/-! ## Unfolding the state machine -/

theorem haptic_work_idle (s : max77843_haptic_data) (h : s.running = false) :
    haptic_work s = s := by
  simp [haptic_work, h]

theorem haptic_work_running (s : max77843_haptic_data) (h : s.running = true) :
    haptic_work s =
      { pwm_disable (max77843_haptic_i2c s false) with running := false } := by
  simp [haptic_work, h]

/-- A positive duration on a running device with no stop job queued: only the
`timeout` field and the countdown change. -/
theorem haptic_enable_running (s : max77843_haptic_data) (d : Int) (hd : 0 < d)
    (hr : s.running = true) (hq : s.kwork_queued = false) :
    haptic_enable s d =
      { s with timeout := to_u32 d,
               timer := some ((min d (s.pdata.max_timeout.val : Int)).toNat * NSEC_PER_MSEC) } := by
  have hm := s.pdata.max_timeout.isLt
  have hu : to_u64 ((min d (s.pdata.max_timeout.val : Int)).toNat * NSEC_PER_MSEC)
      = (min d (s.pdata.max_timeout.val : Int)).toNat * NSEC_PER_MSEC := by
    unfold to_u64 NSEC_PER_MSEC
    omega
  simp [haptic_enable, flush_kthread_worker, hrtimer_cancel, hrtimer_start, hd, hr, hq, hu]

theorem to_u64_clamped (d : Int) (m : u16) :
    to_u64 ((min d (m.val : Int)).toNat * NSEC_PER_MSEC)
      = (min d (m.val : Int)).toNat * NSEC_PER_MSEC := by
  have hm := m.isLt
  unfold to_u64 NSEC_PER_MSEC
  omega

/-- The fields of the device after `haptic_enable` with a positive duration. -/
theorem haptic_enable_pos (s : max77843_haptic_data) (d : Int) (hd : 0 < d) :
    (haptic_enable s d).running = true ∧
    (haptic_enable s d).kwork_queued = false ∧
    (haptic_enable s d).timer
      = some ((min d (s.pdata.max_timeout.val : Int)).toNat * NSEC_PER_MSEC) ∧
    (haptic_enable s d).pdata = s.pdata ∧
    (haptic_enable s d).duty = s.duty := by
  have hu := to_u64_clamped d s.pdata.max_timeout
  cases hq : s.kwork_queued <;> cases hr : s.running <;>
    simp [haptic_enable, flush_kthread_worker, run_stop_job, haptic_work, hrtimer_cancel,
      hrtimer_start, pwm_config, pwm_enable, pwm_disable, regulator_enable,
      max77843_haptic_i2c, max77843_update_reg, hd, hr, hq, hu]

theorem haptic_get_time_armed (s : max77843_haptic_data) (ms : Nat) (hms : ms < 65536)
    (h : s.timer = some (ms * NSEC_PER_MSEC)) :
    haptic_get_time s = (ms : Int) := by
  unfold haptic_get_time
  rw [h]
  simp only [NSEC_PER_MSEC]
  rw [to_int_of_range _ (by omega) (by omega)]
  omega

theorem haptic_get_time_le (s : max77843_haptic_data) (r ms : Nat) (hms : ms < 65536)
    (hr : r ≤ ms * NSEC_PER_MSEC) (h : s.timer = some r) :
    haptic_get_time s ≤ (ms : Int) := by
  unfold haptic_get_time
  rw [h]
  simp only [NSEC_PER_MSEC] at hr ⊢
  rw [to_int_of_range _ (by omega) (by omega)]
  omega

/-! ## The activation state machine: claims C2, C3, C4 -/

/-- C2: for positive durations `d1` and `d2`, after `haptic_enable d1` the
device is running with no stop job queued, and a following `haptic_enable d2`
changes nothing but the `timeout` field and the countdown, which is re-armed to
`min d2 max_timeout` milliseconds: `running` stays `true`, and the call issues no
hardware request at all (no PWM config, no PWM enable, no regulator enable, no
register write). -/
theorem haptic_enable_twice_rearms_without_bringup (s : max77843_haptic_data)
    (d1 d2 : Int) (h1 : 0 < d1) (h2 : 0 < d2) :
    (haptic_enable s d1).running = true ∧
    (haptic_enable s d1).kwork_queued = false ∧
    haptic_enable (haptic_enable s d1) d2 =
      { haptic_enable s d1 with
          timeout := to_u32 d2,
          timer := some ((min d2 (s.pdata.max_timeout.val : Int)).toNat * NSEC_PER_MSEC) } ∧
    (haptic_enable (haptic_enable s d1) d2).running = true ∧
    (haptic_enable (haptic_enable s d1) d2).timer
      = some ((min d2 (s.pdata.max_timeout.val : Int)).toNat * NSEC_PER_MSEC) ∧
    (haptic_enable (haptic_enable s d1) d2).hw_log = (haptic_enable s d1).hw_log ∧
    (haptic_enable (haptic_enable s d1) d2).regulator_enables
      = (haptic_enable s d1).regulator_enables ∧
    (haptic_enable (haptic_enable s d1) d2).mconfig = (haptic_enable s d1).mconfig := by
  obtain ⟨hr, hq, -, hp, -⟩ := haptic_enable_pos s d1 h1
  have h := haptic_enable_running (haptic_enable s d1) d2 h2 hr hq
  have hmt : (haptic_enable s d1).pdata.max_timeout = s.pdata.max_timeout := by rw [hp]
  rw [hmt] at h
  refine ⟨hr, hq, h, ?_, ?_, ?_, ?_, ?_⟩ <;> rw [h]
  exact hr

theorem haptic_enable_twice_rearms_without_bringup_witness :
    (haptic_enable fresh 100).running = true ∧
    (haptic_enable (haptic_enable fresh 100) 20000).running = true ∧
    (haptic_enable (haptic_enable fresh 100) 20000).timer = some (10000 * NSEC_PER_MSEC) ∧
    (haptic_enable (haptic_enable fresh 100) 20000).hw_log
      = (haptic_enable fresh 100).hw_log :=
  have h := haptic_enable_twice_rearms_without_bringup fresh 100 20000 (by decide) (by decide)
  ⟨h.1, h.2.2.2.1, h.2.2.2.2.1, h.2.2.2.2.2.1⟩

/-- C3: in every device state, `haptic_enable` with a duration `d > 0` leaves
the device running with the countdown armed for exactly `min d max_timeout`
milliseconds; `haptic_get_time` read right afterwards returns that number, which
is at most `d`, and it stays at most `d` whatever part of the countdown has
elapsed since. -/
theorem haptic_enable_arms_clamped_countdown (s : max77843_haptic_data) (d : Int)
    (hd : 0 < d) :
    (haptic_enable s d).running = true ∧
    (haptic_enable s d).timer
      = some ((min d (s.pdata.max_timeout.val : Int)).toNat * NSEC_PER_MSEC) ∧
    haptic_get_time (haptic_enable s d) = min d (s.pdata.max_timeout.val : Int) ∧
    haptic_get_time (haptic_enable s d) ≤ d ∧
    (∀ r : Nat, r ≤ (min d (s.pdata.max_timeout.val : Int)).toNat * NSEC_PER_MSEC →
      haptic_get_time { haptic_enable s d with timer := some r } ≤ d) := by
  obtain ⟨hr, -, ht, -, -⟩ := haptic_enable_pos s d hd
  have hm := s.pdata.max_timeout.isLt
  have hms : (min d (s.pdata.max_timeout.val : Int)).toNat < 65536 := by omega
  have hg := haptic_get_time_armed (haptic_enable s d) _ hms ht
  have hcast : (((min d (s.pdata.max_timeout.val : Int)).toNat : Nat) : Int)
      = min d (s.pdata.max_timeout.val : Int) := by omega
  refine ⟨hr, ht, ?_, ?_, ?_⟩
  · rw [hg, hcast]
  · rw [hg, hcast]; omega
  · intro r hle
    have := haptic_get_time_le { haptic_enable s d with timer := some r } r _ hms hle rfl
    omega

theorem haptic_enable_arms_clamped_countdown_witness :
    (haptic_enable fresh 250).running = true ∧
    (haptic_enable fresh 250).timer = some (250 * NSEC_PER_MSEC) ∧
    haptic_get_time (haptic_enable fresh 250) = 250 :=
  have h := haptic_enable_arms_clamped_countdown fresh 250 (by decide)
  ⟨h.1, h.2.1, h.2.2.1⟩

/-- C4: in every device state the stop job `haptic_work` leaves `running`
false.  When `running` was true it issues exactly the tear-down requests, first
the register write clearing the motor-enable bit, then the PWM disable; when
`running` was false it returns the state unchanged, so it issues no hardware
request and changes no field.  Hence a second stop job after a first changes
nothing, and `haptic_enable 0` on an idle device, together with the stop job
it queues, issues no hardware request. -/
theorem haptic_work_tears_down_iff_running (s : max77843_haptic_data) :
    (haptic_work s).running = false ∧
    (s.running = true →
      (haptic_work s).hw_log
        = s.hw_log ++ [hw_op.update_reg pmic_reg.MCONFIG 0 MOTOR_EN, hw_op.pwm_disable] ∧
      ¬ motor_en_set (haptic_work s) ∧ (haptic_work s).pwm_enabled = false) ∧
    (s.running = false → haptic_work s = s) ∧
    haptic_work (haptic_work s) = haptic_work s ∧
    run_stop_job (run_stop_job s) = run_stop_job s ∧
    (s.running = false →
      (haptic_enable s 0).hw_log = s.hw_log ∧
      (haptic_enable s 0).running = false ∧
      (haptic_enable s 0).kwork_queued = true ∧
      (run_stop_job (haptic_enable s 0)).hw_log = s.hw_log ∧
      (run_stop_job (haptic_enable s 0)).running = false) := by
  have hrun : ∀ t : max77843_haptic_data, (haptic_work t).running = false := by
    intro t
    cases ht : t.running <;> simp [haptic_work, ht]
  have hidem : ∀ t : max77843_haptic_data, haptic_work (haptic_work t) = haptic_work t :=
    fun t => haptic_work_idle _ (hrun t)
  refine ⟨hrun s, ?_, haptic_work_idle s, hidem s, ?_, ?_⟩
  · intro h
    rw [haptic_work_running s h]
    refine ⟨?_, ?_, ?_⟩
    · simp [pwm_disable, max77843_haptic_i2c, max77843_update_reg]
    · have hc := rmw_clear_motor_en s.mconfig
      have hne := motor_en_ne_zero
      simp only [motor_en_set, pwm_disable, max77843_haptic_i2c, max77843_update_reg]
      intro hset
      simp only [Bool.false_eq_true, if_false] at hset
      rw [hc] at hset
      exact hne hset.symm
    · simp [pwm_disable]
  · unfold run_stop_job
    have h1 : (haptic_work { s with kwork_queued := false }).kwork_queued = false := by
      cases hs : s.running <;>
        simp [haptic_work, hs, pwm_disable, max77843_haptic_i2c, max77843_update_reg]
    have h2 : ({ haptic_work { s with kwork_queued := false } with kwork_queued := false }
        : max77843_haptic_data) = haptic_work { s with kwork_queued := false } := by
      cases hs : s.running <;>
        simp [haptic_work, hs, pwm_disable, max77843_haptic_i2c, max77843_update_reg]
    rw [h2]
    exact hidem _
  · intro h
    cases hq : s.kwork_queued <;>
      simp [haptic_enable, flush_kthread_worker, run_stop_job, haptic_work, hrtimer_cancel,
        queue_kthread_work, h, hq]

theorem haptic_work_tears_down_iff_running_witness :
    ((haptic_work (haptic_enable fresh 100)).hw_log
        = (haptic_enable fresh 100).hw_log
          ++ [hw_op.update_reg pmic_reg.MCONFIG 0 MOTOR_EN, hw_op.pwm_disable] ∧
      ¬ motor_en_set (haptic_work (haptic_enable fresh 100)) ∧
      (haptic_work (haptic_enable fresh 100)).pwm_enabled = false) ∧
    haptic_work fresh = fresh ∧
    (run_stop_job (haptic_enable fresh 0)).hw_log = fresh.hw_log :=
  ⟨(haptic_work_tears_down_iff_running (haptic_enable fresh 100)).2.1 (by decide),
   (haptic_work_tears_down_iff_running fresh).2.2.1 (by decide),
   ((haptic_work_tears_down_iff_running fresh).2.2.2.2.2 (by decide)).2.2.2.1⟩

/-! ## Frame facts: what each operation leaves alone -/

theorem haptic_enable_frame (s : max77843_haptic_data) (d : Int) :
    (haptic_enable s d).pdata = s.pdata ∧ (haptic_enable s d).duty = s.duty := by
  by_cases hd : 0 < d
  · obtain ⟨-, -, -, hp, hdu⟩ := haptic_enable_pos s d hd
    exact ⟨hp, hdu⟩
  · cases hq : s.kwork_queued <;> cases hr : s.running <;>
      simp [haptic_enable, flush_kthread_worker, run_stop_job, haptic_work, hrtimer_cancel,
        queue_kthread_work, pwm_disable, max77843_haptic_i2c, max77843_update_reg, hd, hr, hq]

theorem run_stop_job_frame (s : max77843_haptic_data) :
    (run_stop_job s).pdata = s.pdata ∧ (run_stop_job s).duty = s.duty ∧
    (run_stop_job s).running = false ∧ (run_stop_job s).kwork_queued = false := by
  cases hr : s.running <;>
    simp [run_stop_job, haptic_work, pwm_disable, max77843_haptic_i2c, max77843_update_reg, hr]

theorem hrtimer_expire_frame (s : max77843_haptic_data) :
    (hrtimer_expire s).pdata = s.pdata ∧ (hrtimer_expire s).duty = s.duty := by
  simp [hrtimer_expire, haptic_timer_func, queue_kthread_work]

theorem suspend_frame (s : max77843_haptic_data) :
    (max77843_haptic_suspend s).pdata = s.pdata ∧
    (max77843_haptic_suspend s).duty = s.duty := by
  cases hq : s.kwork_queued <;> cases hr : s.running <;>
    simp [max77843_haptic_suspend, flush_kthread_worker, run_stop_job, haptic_work,
      hrtimer_cancel, pwm_disable, max77843_haptic_i2c, max77843_update_reg, hr, hq]

theorem resume_frame (s : max77843_haptic_data) :
    (max77843_haptic_resume s).pdata = s.pdata ∧
    (max77843_haptic_resume s).duty = s.duty ∧
    (max77843_haptic_resume s).running = s.running := by
  simp [max77843_haptic_resume, max77843_haptic_init_reg, motor_vdd_en, regulator_enable,
    max77843_update_reg]

theorem intensity_store_duty_range (pdata : max77843_haptic_platform_data) (v : Int)
    (h0 : 0 ≤ v) (h1 : v ≤ MAX_INTENSITY) (hb : pdata.duty ≤ pdata.period) :
    0 ≤ intensity_store_duty pdata v ∧
    intensity_store_duty pdata v ≤ (pdata.period.val : Int) := by
  have hM : MAX_INTENSITY = 10000 := rfl
  have hb' : pdata.duty.val ≤ pdata.period.val := hb
  rcases lt_or_eq_of_le h1 with hlt | heq
  · rcases lt_or_eq_of_le h0 with hpos | hz
    · rw [intensity_store_duty_mid pdata v hpos hlt]
      have hb0 : (0 : Int) ≤ ((pdata.duty.val / 2 : Nat) : Int) := by omega
      have hp := half_scaled_le _ (v / 100) hb0 (by omega) (by omega)
      omega
    · subst hz
      rw [intensity_store_duty_zero]
      omega
  · subst heq
    rw [intensity_store_duty_max]
    omega

theorem intensity_store_frame (s : max77843_haptic_data) (request : Option Int)
    (count : Nat) (hb : s.pdata.duty ≤ s.pdata.period) (h0 : 0 ≤ s.duty)
    (h1 : s.duty ≤ (s.pdata.period.val : Int)) :
    (intensity_store s request count).1.pdata = s.pdata ∧
    0 ≤ (intensity_store s request count).1.duty ∧
    (intensity_store s request count).1.duty ≤ (s.pdata.period.val : Int) := by
  have hM : MAX_INTENSITY = 10000 := rfl
  have fits : ∀ v : Int, -2147483648 ≤ v → v ≤ 2147483647 →
      (intensity_store s (some v) count).1.pdata = s.pdata ∧
      0 ≤ (intensity_store s (some v) count).1.duty ∧
      (intensity_store s (some v) count).1.duty ≤ (s.pdata.period.val : Int) := by
    intro v hlo hhi
    by_cases hv : v < 0 ∨ MAX_INTENSITY < v
    · rw [intensity_store_reject s v count hlo hhi hv]
      exact ⟨rfl, h0, h1⟩
    · have hr := intensity_store_duty_range s.pdata v (by omega) (by omega) hb
      rw [intensity_store_accept s v count (by omega) (by omega)]
      exact ⟨rfl, hr.1, hr.2⟩
  cases request with
  | none =>
    rw [intensity_store_none]
    exact fits 0 (by decide) (by decide)
  | some v =>
    by_cases hr : -2147483648 ≤ v ∧ v ≤ 2147483647
    · exact fits v hr.1 hr.2
    · rw [intensity_store_overflow s v count (by omega)]
      exact fits 0 (by decide) (by decide)

theorem probe_ok_fields (env : probe_env) (pdata : max77843_haptic_platform_data)
    (s0 : max77843_haptic_data) (h : max77843_haptic_probe env pdata = Except.ok s0) :
    s0.pdata = pdata ∧ s0.duty = 0 ∧ s0.running = false ∧ s0.timer = none ∧
    s0.kwork_queued = false := by
  unfold max77843_haptic_probe at h
  split_ifs at h
  simp only [Except.ok.injEq] at h
  subst h
  simp [max77843_haptic_init_reg, motor_vdd_en, regulator_enable, max77843_update_reg,
    pwm_config]

/-! ## The duty bound over every sequence of operations: claim C9 -/

/-- C9: for a device constructed by `max77843_haptic_probe` from platform data
with `baseline duty ≤ period`, after every sequence of operations (activate,
timer expiry, stop job, set_intensity with any input, suspend, resume), the empty
sequence included, the platform data is the one given at construction and the
stored duty lies in `[0, period]`. -/
theorem duty_within_period_after_every_sequence (env : probe_env)
    (pdata : max77843_haptic_platform_data) (s0 : max77843_haptic_data)
    (ops : List haptic_op)
    (hprobe : max77843_haptic_probe env pdata = Except.ok s0)
    (hb : pdata.duty ≤ pdata.period) :
    (run s0 ops).pdata = pdata ∧ 0 ≤ (run s0 ops).duty ∧
    (run s0 ops).duty ≤ (pdata.period.val : Int) := by
  obtain ⟨hp0, hd0, -, -, -⟩ := probe_ok_fields env pdata s0 hprobe
  have inv : ∀ (l : List haptic_op) (s : max77843_haptic_data),
      s.pdata = pdata → 0 ≤ s.duty → s.duty ≤ (pdata.period.val : Int) →
      (run s l).pdata = pdata ∧ 0 ≤ (run s l).duty ∧
      (run s l).duty ≤ (pdata.period.val : Int) := by
    intro l
    induction l with
    | nil => intro s hp h0 h1; exact ⟨hp, h0, h1⟩
    | cons op rest ih =>
      intro s hp h0 h1
      show (run (step s op) rest).pdata = pdata ∧ 0 ≤ (run (step s op) rest).duty ∧
        (run (step s op) rest).duty ≤ (pdata.period.val : Int)
      have hstep : (step s op).pdata = pdata ∧ 0 ≤ (step s op).duty ∧
          (step s op).duty ≤ (pdata.period.val : Int) := by
        cases op with
        | activate d =>
          obtain ⟨e1, e2⟩ := haptic_enable_frame s d
          show (haptic_enable s d).pdata = pdata ∧ 0 ≤ (haptic_enable s d).duty ∧
            (haptic_enable s d).duty ≤ (pdata.period.val : Int)
          rw [e1, e2]; exact ⟨hp, h0, h1⟩
        | timer_expiry =>
          obtain ⟨e1, e2⟩ := hrtimer_expire_frame s
          show (hrtimer_expire s).pdata = pdata ∧ 0 ≤ (hrtimer_expire s).duty ∧
            (hrtimer_expire s).duty ≤ (pdata.period.val : Int)
          rw [e1, e2]; exact ⟨hp, h0, h1⟩
        | stop_job =>
          obtain ⟨e1, e2, -, -⟩ := run_stop_job_frame s
          show (run_stop_job s).pdata = pdata ∧ 0 ≤ (run_stop_job s).duty ∧
            (run_stop_job s).duty ≤ (pdata.period.val : Int)
          rw [e1, e2]; exact ⟨hp, h0, h1⟩
        | set_intensity request count =>
          have hf := intensity_store_frame s request count (by rw [hp]; exact hb) h0
            (by rw [hp]; exact h1)
          rw [hp] at hf
          exact hf
        | suspend =>
          obtain ⟨e1, e2⟩ := suspend_frame s
          show (max77843_haptic_suspend s).pdata = pdata ∧
            0 ≤ (max77843_haptic_suspend s).duty ∧
            (max77843_haptic_suspend s).duty ≤ (pdata.period.val : Int)
          rw [e1, e2]; exact ⟨hp, h0, h1⟩
        | resume =>
          obtain ⟨e1, e2, -⟩ := resume_frame s
          show (max77843_haptic_resume s).pdata = pdata ∧
            0 ≤ (max77843_haptic_resume s).duty ∧
            (max77843_haptic_resume s).duty ≤ (pdata.period.val : Int)
          rw [e1, e2]; exact ⟨hp, h0, h1⟩
      exact ih (step s op) hstep.1 hstep.2.1 hstep.2.2
  exact inv ops s0 hp0 (by omega) (by rw [hd0]; omega)

theorem duty_within_period_after_every_sequence_witness :
    (run fresh [haptic_op.set_intensity (some 9999) 4, haptic_op.activate 100,
        haptic_op.suspend, haptic_op.resume, haptic_op.set_intensity (some 20000) 5,
        haptic_op.timer_expiry, haptic_op.stop_job]).pdata = board ∧
    0 ≤ (run fresh [haptic_op.set_intensity (some 9999) 4, haptic_op.activate 100,
        haptic_op.suspend, haptic_op.resume, haptic_op.set_intensity (some 20000) 5,
        haptic_op.timer_expiry, haptic_op.stop_job]).duty ∧
    (run fresh [haptic_op.set_intensity (some 9999) 4, haptic_op.activate 100,
        haptic_op.suspend, haptic_op.resume, haptic_op.set_intensity (some 20000) 5,
        haptic_op.timer_expiry, haptic_op.stop_job]).duty ≤ (board.period.val : Int) :=
  duty_within_period_after_every_sequence good_env board fresh _ rfl (by decide)

/-! ## The running invariant and the suspend path: claims C1 and C5 -/

theorem running_powered_probe (env : probe_env) (pdata : max77843_haptic_platform_data)
    (s0 : max77843_haptic_data) (h : max77843_haptic_probe env pdata = Except.ok s0) :
    running_powered s0 := by
  obtain ⟨-, -, hr, -, -⟩ := probe_ok_fields env pdata s0 h
  intro hrun
  rw [hr] at hrun
  exact absurd hrun (by decide)

theorem running_powered_haptic_enable (s : max77843_haptic_data) (d : Int)
    (h : running_powered s) : running_powered (haptic_enable s d) := by
  have hset := rmw_set_motor_en s.mconfig
  have hset2 := rmw_set_motor_en (rmw s.mconfig 0 MOTOR_EN)
  unfold running_powered motor_en_set at h ⊢
  by_cases hd : 0 < d <;> cases hq : s.kwork_queued <;> cases hr : s.running <;>
    simp [haptic_enable, flush_kthread_worker, run_stop_job, haptic_work, hrtimer_cancel,
      hrtimer_start, queue_kthread_work, pwm_config, pwm_enable, pwm_disable,
      regulator_enable, max77843_haptic_i2c, max77843_update_reg, hd, hr, hq, hset,
      hset2] <;>
    simpa [hr] using h

theorem running_powered_hrtimer_expire (s : max77843_haptic_data)
    (h : running_powered s) : running_powered (hrtimer_expire s) := by
  unfold running_powered motor_en_set at h ⊢
  simpa [hrtimer_expire, haptic_timer_func, queue_kthread_work] using h

theorem running_powered_run_stop_job (s : max77843_haptic_data) :
    running_powered (run_stop_job s) := by
  obtain ⟨-, -, hr, -⟩ := run_stop_job_frame s
  intro hrun
  rw [hr] at hrun
  exact absurd hrun (by decide)

theorem running_powered_intensity_store (s : max77843_haptic_data) (request : Option Int)
    (count : Nat) (h : running_powered s) :
    running_powered (intensity_store s request count).1 := by
  have hM : MAX_INTENSITY = 10000 := rfl
  have fits : ∀ v : Int, -2147483648 ≤ v → v ≤ 2147483647 →
      running_powered (intensity_store s (some v) count).1 := by
    intro v hlo hhi
    by_cases hv : v < 0 ∨ MAX_INTENSITY < v
    · rw [intensity_store_reject s v count hlo hhi hv]
      exact h
    · rw [intensity_store_accept s v count (by omega) (by omega)]
      unfold running_powered motor_en_set at h ⊢
      intro hrun
      have h3 := (h hrun).2.2
      exact ⟨rfl, rfl, h3⟩
  cases request with
  | none =>
    rw [intensity_store_none]
    exact fits 0 (by decide) (by decide)
  | some v =>
    by_cases hr : -2147483648 ≤ v ∧ v ≤ 2147483647
    · exact fits v hr.1 hr.2
    · rw [intensity_store_overflow s v count (by omega)]
      exact fits 0 (by decide) (by decide)

theorem running_powered_resume_idle (s : max77843_haptic_data) (h : s.running = false) :
    running_powered (max77843_haptic_resume s) := by
  obtain ⟨-, -, hr⟩ := resume_frame s
  intro hrun
  rw [hr, h] at hrun
  exact absurd hrun (by decide)

/-- What `max77843_haptic_suspend` does establish in every state: no countdown
is armed, no stop job is queued, the motor-enable bit is clear; and `running` is
false when it was false before or a stop job was queued. -/
theorem suspend_facts (s : max77843_haptic_data) :
    (max77843_haptic_suspend s).timer = none ∧
    (max77843_haptic_suspend s).kwork_queued = false ∧
    ¬ motor_en_set (max77843_haptic_suspend s) ∧
    ((s.running = false ∨ s.kwork_queued = true) →
      (max77843_haptic_suspend s).running = false) ∧
    ((s.running = true ∧ s.kwork_queued = false) →
      (max77843_haptic_suspend s).running = true) := by
  have hne := motor_en_ne_zero
  have hc := rmw_clear_motor_en s.mconfig
  have hc2 := rmw_clear_motor_en (rmw s.mconfig 0 MOTOR_EN)
  unfold motor_en_set
  cases hq : s.kwork_queued <;> cases hr : s.running <;>
    simp [max77843_haptic_suspend, flush_kthread_worker, run_stop_job, haptic_work,
      hrtimer_cancel, pwm_disable, max77843_haptic_i2c, max77843_update_reg, hr, hq, hc,
      hc2, hne.symm]

/-- C1, evaluation of the driver at the failing input: on the device
constructed for `board`, after `haptic_enable 100` (running, countdown armed,
no stop job queued) `max77843_haptic_suspend` disarms the countdown and clears
the motor-enable bit but leaves `running` true and the PWM output enabled;
after the following resume, the next `haptic_enable 100` therefore skips the
bring-up: it issues no hardware request and the motor-enable bit stays clear. -/
theorem suspend_leaves_running_stale :
    (haptic_enable fresh 100).running = true ∧
    (haptic_enable fresh 100).timer = some (100 * NSEC_PER_MSEC) ∧
    (haptic_enable fresh 100).kwork_queued = false ∧
    (max77843_haptic_suspend (haptic_enable fresh 100)).running = true ∧
    (max77843_haptic_suspend (haptic_enable fresh 100)).timer = none ∧
    (max77843_haptic_suspend (haptic_enable fresh 100)).pwm_enabled = true ∧
    ¬ motor_en_set (max77843_haptic_suspend (haptic_enable fresh 100)) ∧
    (haptic_enable (max77843_haptic_resume
        (max77843_haptic_suspend (haptic_enable fresh 100))) 100).hw_log
      = (max77843_haptic_resume (max77843_haptic_suspend (haptic_enable fresh 100))).hw_log ∧
    ¬ motor_en_set (haptic_enable (max77843_haptic_resume
        (max77843_haptic_suspend (haptic_enable fresh 100))) 100) := by
  decide

/-- C5, evaluation of the driver at the failing input: the invariant
`running_powered` holds on the device constructed for `board` and after
`haptic_enable 100`, and is false after the following
`max77843_haptic_suspend` (`running` is still true, the motor-enable bit is
clear); it is equally false when `max77843_haptic_resume` runs on the active
device. -/
theorem suspend_breaks_running_powered :
    running_powered fresh ∧
    running_powered (haptic_enable fresh 100) ∧
    ¬ running_powered (max77843_haptic_suspend (haptic_enable fresh 100)) ∧
    ¬ running_powered (max77843_haptic_resume (haptic_enable fresh 100)) := by
  decide

end Max77843Haptic
